import Mathlib

/-!
Verification development for `sequential_versions/matplotlib_therm_cam.py`
(PiThermalCam, sequential matplotlib version).

The script drives an MLX90640 thermal sensor and exposes five run modes
selected by a `mode` constant: `print_mean_temp` (1), `simple_pic` (2),
`simple_camera_read` (3), `interpolated_pic` (4), `interpolated_camera_read`
(5).  We embed the numeric pipeline (Celsius-to-Fahrenheit conversion, mean,
reshape, horizontal flip), the frame-acquisition retry behaviour of each
mode, and the loop state of the two live-view modes, and prove the spec's
claims about them.

Modelling conventions:
* a sensor frame (the 768-element buffer filled by `mlx.getFrame`) is a
  function `Fin 768 → ℚ`; float readings are modelled by rationals;
* the sensor over time is a trace `reads : ℕ → Option Frame`: `reads n` is
  the outcome of the n-th call to `mlx.getFrame` — `none` when the driver
  raises `ValueError`, `some f` when the call fills the buffer with `f`;
* wall-clock samples (`time.monotonic`) are rational inputs `t1s`, `dur`;
* loops are run with explicit fuel; a loop body is a `Step` (continue,
  normal exit via `break`/`return`, or crash with an unhandled exception)
  and `runLoop` iterates it.
-/

set_option autoImplicit false

namespace ThermCam

/-- A full sensor frame: the 24×32 = 768 temperature buffer. -/
abbrev Frame := Fin 768 → ℚ

/-- `np.zeros((24*32,))`: the all-zero frame buffer the script allocates
before each acquisition. -/
def zeroFrame : Frame := fun _ => 0

/-- `c_to_f` (script lines 59-61): `(9.0 / 5.0) * temp + 32.0`. -/
def c_to_f (temp : ℚ) : ℚ := (9 / 5) * temp + 32

/-- `np.mean` on the 768-element frame buffer: sum of entries over count. -/
def np_mean (f : Frame) : ℚ := (∑ i, f i) / 768

/-- `np.reshape(frame, (24, 32))` (script line 97): row-major reshape of the
768-element buffer into a 24×32 grid. -/
def np_reshape (frame : Frame) : Fin 24 → Fin 32 → ℚ :=
  fun i j => frame ⟨32 * i.val + j.val, by
    have hi := i.isLt
    have hj := j.isLt
    omega⟩

/-- `np.fliplr` on a 24×32 grid (script lines 98, 164, 211): reverse each
row, i.e. entry `(i, j)` of the result is entry `(i, 31 - j)` of the input. -/
def np_fliplr (g : Fin 24 → Fin 32 → ℚ) : Fin 24 → Fin 32 → ℚ :=
  fun i j => g i j.rev

/-- Outcome of one loop-body execution. -/
inductive Step (σ : Type) where
  | next : σ → Step σ
  | halt : σ → Step σ
  | crash : σ → Step σ
deriving DecidableEq

/-- The state carried by a step outcome. -/
def Step.state {σ : Type} : Step σ → σ
  | .next s => s
  | .halt s => s
  | .crash s => s

/-- Outcome of running a loop for a given amount of fuel. -/
inductive Run (σ : Type) where
  | running : σ → Run σ
  | finished : σ → Run σ
  | crashed : σ → Run σ
deriving DecidableEq

/-- The state reached by a run, whatever the outcome. -/
def Run.state {σ : Type} : Run σ → σ
  | .running s => s
  | .finished s => s
  | .crashed s => s

/-- Iterate a loop body: `n` is the iteration index (used to sample the
sensor and clock traces), `fuel` bounds how many iterations we observe. -/
def runLoop {σ : Type} (step : ℕ → σ → Step σ) : ℕ → ℕ → σ → Run σ
  | 0, _, s => .running s
  | fuel + 1, n, s =>
    match step n s with
    | .next s' => runLoop step fuel (n + 1) s'
    | .halt s' => .finished s'
    | .crash s' => .crashed s'

/-- `profiling` (script line 18): the flag that turns profiling on; set to
`False` in the source. -/
def profiling : Bool := false

/-- A parsed configuration file: a partial map from (section, option) pairs
to raw string values, as `configparser` presents it. -/
structure Config where
  get : String → String → Option String

/-- Module initialisation (script lines 44-52): the only configuration
access of the whole script is `config.get(section="FILEPATHS",
option="output_folder", raw=True)`.  Returns the value read together with
the trace of (section, option) keys consulted. -/
def moduleInit (c : Config) : Option String × List (String × String) :=
  (c.get "FILEPATHS" "output_folder", [("FILEPATHS", "output_folder")])

/-- The retry loop of `print_mean_temp` (script lines 70-75): call
`mlx.getFrame` starting at trace position `start`; on `ValueError` retry
immediately with the next read, on success break with the frame.  `fuel`
bounds how many reads we observe; `none` means the loop was still spinning
when fuel ran out. -/
def acquireFrame (reads : ℕ → Option Frame) : ℕ → ℕ → Option Frame
  | 0, _ => none
  | fuel + 1, start =>
    match reads start with
    | some f => some f
    | none => acquireFrame reads fuel (start + 1)

/-- The tail of `print_mean_temp` (script lines 77-80): mean of the frame,
Fahrenheit conversion, and the returned pair `(temp_c, temp_f)`. -/
def print_mean_temp_result (frame : Frame) : ℚ × ℚ :=
  let temp_c := np_mean frame
  let temp_f := c_to_f temp_c
  (temp_c, temp_f)

/-- `print_mean_temp` (script lines 65-80), end to end: acquire a frame via
the retry loop, then return the (Celsius, Fahrenheit) mean pair. -/
def print_mean_temp_run (reads : ℕ → Option Frame) (fuel : ℕ) : Option (ℚ × ℚ) :=
  (acquireFrame reads fuel 0).map print_mean_temp_result

/-- Result of a single-pass mode (modes 2 and 4): either a normal return
carrying the list of files saved, or an unhandled exception. -/
inductive ModeRun where
  | finished : List String → ModeRun
  | crashed : ModeRun
deriving DecidableEq

/-- `simple_pic` (script lines 83-102): a single unguarded
`mlx.getFrame` call (line 96, no try/except), then one `fig.savefig` of
`output_folder + "simple_pic.png"` (line 102).  A `ValueError` from the
read propagates and aborts the mode. -/
def simple_pic_run (reads : ℕ → Option Frame) (output_folder : String) : ModeRun :=
  match reads 0 with
  | none => .crashed
  | some _ => .finished [output_folder ++ "simple_pic.png"]

/-- The grid handed to `therm1.set_data` in `simple_pic` (lines 97-98):
reshape the buffer to 24×32, then flip left to right. -/
def simple_pic_display (frame : Frame) : Fin 24 → Fin 32 → ℚ :=
  np_fliplr (np_reshape frame)

/-- `interpolated_pic` (script lines 135-176): one call of its
`plot_update`, whose `mlx.getFrame` (line 163) is unguarded, then one
`fig.savefig` of `output_folder + "interp_pic.png"` (line 176). -/
def interpolated_pic_run (reads : ℕ → Option Frame) (output_folder : String) : ModeRun :=
  match reads 0 with
  | none => .crashed
  | some _ => .finished [output_folder ++ "interp_pic.png"]

/-- Loop body of `simple_camera_read` (script lines 119-132).  State: the
`t_array` list of per-iteration times.  The whole body is inside
`try ... except ValueError: continue`, so a failed read leaves the state
unchanged and retries; a successful read appends the elapsed time `dur`.
The body has no `break` or `return`, so it always continues. -/
def scr_step (read : Option Frame) (dur : ℚ) (t_array : List ℚ) : Step (List ℚ) :=
  match read with
  | none => .next t_array
  | some _ => .next (t_array ++ [dur])

/-- `simple_camera_read`'s infinite loop, iterated with fuel: `reads n` and
`dur n` are the n-th `mlx.getFrame` outcome and measured iteration time. -/
def scr_run (reads : ℕ → Option Frame) (dur : ℕ → ℚ) : ℕ → ℕ → List ℚ → Run (List ℚ) :=
  runLoop (fun n ta => scr_step (reads n) (dur n) ta)

/-- Loop state of `interpolated_camera_read` (script lines 223-225):
`t_array` of recent iteration times, `last_update` time of the last full
colorbar update (initially -100), `count` of full updates, plus the trace
of files written. -/
structure ICRState where
  t_array : List ℚ
  last_update : ℚ
  count : ℕ
  files : List String
deriving DecidableEq

/-- Initial state of `interpolated_camera_read`'s loop:
`t_array = []`, `last_update = -100`, `count = 0`, nothing written. -/
def icr_init : ICRState :=
  { t_array := [], last_update := -100, count := 0, files := [] }

/-- One iteration of `interpolated_camera_read`'s `while True` loop
(script lines 226-251), with `colorbar_update_interval = 5`:
take `t1`, decide `full_update` by `t1 - last_update > 5` (updating
`last_update`), then `plot_update(full_update)` whose `mlx.getFrame`
(line 210) is unguarded — the `try/except` around it is commented out
(lines 228, 235-236) — so a `ValueError` crashes the mode; on success
append the elapsed time to `t_array`, trimming it to the 10 most recent
when it exceeds 10; on a full update increment `count`, and when
`profiling & (count >= 20)` dump the profiling stats to
`output_folder + "profiling_stats.prof"` and `break`. -/
def icr_step (prof : Bool) (output_folder : String) (read : Option Frame)
    (t1 dur : ℚ) (s : ICRState) : Step ICRState :=
  let full_update := 5 < t1 - s.last_update
  let last_update := if full_update then t1 else s.last_update
  match read with
  | none => .crash { s with last_update := last_update }
  | some _ =>
    let ta0 := s.t_array ++ [dur]
    let t_array := if 10 < ta0.length then ta0.tail else ta0
    if full_update then
      let count := s.count + 1
      if prof ∧ 20 ≤ count then
        .halt { t_array := t_array, last_update := last_update, count := count,
                files := s.files ++ [output_folder ++ "profiling_stats.prof"] }
      else
        .next { t_array := t_array, last_update := last_update, count := count,
                files := s.files }
    else
      .next { t_array := t_array, last_update := last_update, count := s.count,
              files := s.files }

/-- `interpolated_camera_read`'s loop, iterated with fuel: `reads n`,
`t1s n`, `dur n` are the n-th read outcome, iteration start time, and
measured iteration duration. -/
def icr_run (prof : Bool) (output_folder : String) (reads : ℕ → Option Frame)
    (t1s dur : ℕ → ℚ) : ℕ → ℕ → ICRState → Run ICRState :=
  runLoop (fun n s => icr_step prof output_folder (reads n) (t1s n) (dur n) s)

/-! ### Basic lemmas about the loop machinery -/

@[simp]
lemma Step.state_next {σ : Type} (s : σ) : (Step.next s).state = s := rfl

@[simp]
lemma Step.state_halt {σ : Type} (s : σ) : (Step.halt s).state = s := rfl

@[simp]
lemma Step.state_crash {σ : Type} (s : σ) : (Step.crash s).state = s := rfl

@[simp]
lemma Run.state_running {σ : Type} (s : σ) : (Run.running s).state = s := rfl

@[simp]
lemma Run.state_finished {σ : Type} (s : σ) : (Run.finished s).state = s := rfl

@[simp]
lemma Run.state_crashed {σ : Type} (s : σ) : (Run.crashed s).state = s := rfl

@[simp]
lemma runLoop_zero {σ : Type} (step : ℕ → σ → Step σ) (n : ℕ) (s : σ) :
    runLoop step 0 n s = .running s := rfl

lemma runLoop_succ_next {σ : Type} {step : ℕ → σ → Step σ} {n : ℕ} {s s' : σ} (fuel : ℕ)
    (hs : step n s = .next s') :
    runLoop step (fuel + 1) n s = runLoop step fuel (n + 1) s' := by
  show (match step n s with
    | .next s' => runLoop step fuel (n + 1) s'
    | .halt s' => Run.finished s'
    | .crash s' => Run.crashed s') = _
  rw [hs]

lemma runLoop_succ_halt {σ : Type} {step : ℕ → σ → Step σ} {n : ℕ} {s s' : σ} (fuel : ℕ)
    (hs : step n s = .halt s') :
    runLoop step (fuel + 1) n s = .finished s' := by
  show (match step n s with
    | .next s' => runLoop step fuel (n + 1) s'
    | .halt s' => Run.finished s'
    | .crash s' => Run.crashed s') = _
  rw [hs]

lemma runLoop_succ_crash {σ : Type} {step : ℕ → σ → Step σ} {n : ℕ} {s s' : σ} (fuel : ℕ)
    (hs : step n s = .crash s') :
    runLoop step (fuel + 1) n s = .crashed s' := by
  show (match step n s with
    | .next s' => runLoop step fuel (n + 1) s'
    | .halt s' => Run.finished s'
    | .crash s' => Run.crashed s') = _
  rw [hs]

/-- An invariant preserved by every step holds at the state reached by any
fuelled run. -/
lemma runLoop_invariant {σ : Type} (step : ℕ → σ → Step σ) (P : σ → Prop)
    (hstep : ∀ n s, P s → P (step n s).state) :
    ∀ fuel n s, P s → P ((runLoop step fuel n s).state) := by
  intro fuel
  induction fuel with
  | zero => intro n s h; simpa using h
  | succ fuel ih =>
    intro n s h
    have h' := hstep n s h
    cases hs : step n s with
    | next s' =>
      rw [runLoop_succ_next fuel hs]
      exact ih (n + 1) s' (by simpa [hs] using h')
    | halt s' => rw [runLoop_succ_halt fuel hs]; simpa [hs] using h'
    | crash s' => rw [runLoop_succ_crash fuel hs]; simpa [hs] using h'

/-- A loop whose body can never take the `halt` branch never finishes. -/
lemma runLoop_ne_finished {σ : Type} (step : ℕ → σ → Step σ)
    (h : ∀ n s s', step n s ≠ .halt s') :
    ∀ fuel n s s', runLoop step fuel n s ≠ .finished s' := by
  intro fuel
  induction fuel with
  | zero => intro n s s' hc; simp [runLoop] at hc
  | succ fuel ih =>
    intro n s s' hc
    cases hs : step n s with
    | next s₂ => rw [runLoop_succ_next fuel hs] at hc; exact ih (n + 1) s₂ s' hc
    | halt s₂ => exact h n s s₂ hs
    | crash s₂ => rw [runLoop_succ_crash fuel hs] at hc; exact Run.noConfusion hc

/-- A loop whose body always continues is still running after any amount of
fuel. -/
lemma runLoop_running {σ : Type} (step : ℕ → σ → Step σ)
    (h : ∀ n s, ∃ s', step n s = .next s') :
    ∀ fuel n s, ∃ s', runLoop step fuel n s = .running s' := by
  intro fuel
  induction fuel with
  | zero => intro n s; exact ⟨s, rfl⟩
  | succ fuel ih =>
    intro n s
    obtain ⟨s', hs⟩ := h n s
    rw [runLoop_succ_next fuel hs]
    exact ih (n + 1) s'

/-! ### Lemmas about `interpolated_camera_read`'s loop body -/

lemma icr_step_none (prof : Bool) (folder : String) (t1 dur : ℚ) (st : ICRState) :
    icr_step prof folder none t1 dur st =
      .crash { st with last_update := if 5 < t1 - st.last_update then t1 else st.last_update } :=
  rfl

/-- On a successful read, every branch of the loop body trims `t_array` the
same way: append the new sample, then drop the oldest when the length
exceeds 10. -/
lemma icr_step_some_t_array (prof : Bool) (folder : String) (f : Frame)
    (t1 dur : ℚ) (st : ICRState) :
    (icr_step prof folder (some f) t1 dur st).state.t_array =
      if 10 < (st.t_array ++ [dur]).length then (st.t_array ++ [dur]).tail
      else st.t_array ++ [dur] := by
  simp only [icr_step]
  split
  · split <;> rfl
  · rfl

/-- The loop body either leaves the file trace unchanged or appends the
profiling-statistics dump. -/
lemma icr_step_state_files (prof : Bool) (folder : String) (read : Option Frame)
    (t1 dur : ℚ) (st : ICRState) :
    (icr_step prof folder read t1 dur st).state.files = st.files ∨
    (icr_step prof folder read t1 dur st).state.files =
      st.files ++ [folder ++ "profiling_stats.prof"] := by
  cases read with
  | none => exact Or.inl rfl
  | some f =>
    simp only [icr_step]
    split
    · split
      · exact Or.inr rfl
      · exact Or.inl rfl
    · exact Or.inl rfl

/-- With profiling off, the loop body can never take the `break` branch. -/
lemma icr_step_false_no_halt (folder : String) (read : Option Frame)
    (t1 dur : ℚ) (st st' : ICRState) :
    icr_step false folder read t1 dur st ≠ .halt st' := by
  cases read with
  | none => simp [icr_step_none]
  | some f =>
    simp only [icr_step]
    split
    · split
      · simp_all
      · simp
    · simp

/-- With profiling off, the loop body never touches the file trace. -/
lemma icr_step_false_files (folder : String) (read : Option Frame)
    (t1 dur : ℚ) (st : ICRState) :
    (icr_step false folder read t1 dur st).state.files = st.files := by
  rcases icr_step_state_files false folder read t1 dur st with h | h
  · exact h
  · exfalso
    cases read with
    | none => simp [icr_step_none] at h
    | some f =>
      revert h
      simp only [icr_step]
      split
      · split
        · simp_all
        · simp
      · simp

/-- With profiling on, a continuing iteration keeps the full-update count
below 20 and never writes a file. -/
lemma icr_step_true_next_inv {folder : String} {read : Option Frame}
    {t1 dur : ℚ} {st st' : ICRState} (hc : st.count ≤ 19)
    (hs : icr_step true folder read t1 dur st = .next st') :
    st'.count ≤ 19 ∧ st'.files = st.files := by
  cases read with
  | none => simp [icr_step_none] at hs
  | some f =>
    revert hs
    simp only [icr_step]
    split
    · split
      · simp
      · rename_i hcond
        intro hs
        cases hs
        constructor
        · show st.count + 1 ≤ 19
          simp only [true_and] at hcond
          omega
        · rfl
    · intro hs
      cases hs
      exact ⟨hc, rfl⟩

/-- With profiling on, the `break` branch fires exactly when the 20th full
update happens: the final count is 20 and the profiling-statistics file has
just been written. -/
lemma icr_step_true_halt_inv {folder : String} {read : Option Frame}
    {t1 dur : ℚ} {st st' : ICRState} (hc : st.count ≤ 19)
    (hs : icr_step true folder read t1 dur st = .halt st') :
    st'.count = 20 ∧ st'.files = st.files ++ [folder ++ "profiling_stats.prof"] := by
  cases read with
  | none => simp [icr_step_none] at hs
  | some f =>
    revert hs
    simp only [icr_step]
    split
    · split
      · rename_i hcond
        intro hs
        cases hs
        constructor
        · show st.count + 1 = 20
          simp only [true_and] at hcond
          omega
        · rfl
      · simp
    · simp

/-- A successful step keeps `t_array` within the 10-sample window. -/
lemma icr_step_t_array_le (prof : Bool) (folder : String) (read : Option Frame)
    (t1 dur : ℚ) (st : ICRState) (hlen : st.t_array.length ≤ 10) :
    (icr_step prof folder read t1 dur st).state.t_array.length ≤ 10 := by
  cases read with
  | none => simpa [icr_step_none] using hlen
  | some f =>
    rw [icr_step_some_t_array]
    split
    · rename_i hgt
      simp only [List.length_tail, List.length_append, List.length_singleton]
      omega
    · rename_i hle
      simp only [List.length_append, List.length_singleton] at hle ⊢
      omega

/-! ### Lemmas about the `print_mean_temp` retry loop -/

lemma acquireFrame_zero (reads : ℕ → Option Frame) (start : ℕ) :
    acquireFrame reads 0 start = none := rfl

lemma acquireFrame_succ_some {reads : ℕ → Option Frame} {start : ℕ} {f : Frame}
    (fuel : ℕ) (h : reads start = some f) :
    acquireFrame reads (fuel + 1) start = some f := by
  unfold acquireFrame
  rw [h]

lemma acquireFrame_succ_none {reads : ℕ → Option Frame} {start : ℕ}
    (fuel : ℕ) (h : reads start = none) :
    acquireFrame reads (fuel + 1) start = acquireFrame reads fuel (start + 1) := by
  show (match reads start with
    | some f => some f
    | none => acquireFrame reads fuel (start + 1)) = _
  rw [h]

/-- If the loop breaks with a frame, some read in the trace succeeded. -/
lemma exists_read_of_acquireFrame (reads : ℕ → Option Frame) :
    ∀ fuel start f, acquireFrame reads fuel start = some f → ∃ n, reads n ≠ none := by
  intro fuel
  induction fuel with
  | zero => intro start f h; simp [acquireFrame_zero] at h
  | succ fuel ih =>
    intro start f h
    cases hr : reads start with
    | some g => exact ⟨start, by simp [hr]⟩
    | none =>
      rw [acquireFrame_succ_none fuel hr] at h
      exact ih (start + 1) f h

/-- If some read at or after `start` succeeds, the loop breaks once given
enough fuel. -/
lemma acquireFrame_succeeds (reads : ℕ → Option Frame) :
    ∀ k start, reads (start + k) ≠ none → ∃ f, acquireFrame reads (k + 1) start = some f := by
  intro k
  induction k with
  | zero =>
    intro start h
    cases hr : reads start with
    | some f => exact ⟨f, acquireFrame_succ_some 0 hr⟩
    | none => exact absurd (by simpa using hr) h
  | succ k ih =>
    intro start h
    cases hr : reads start with
    | some f => exact ⟨f, acquireFrame_succ_some (k + 1) hr⟩
    | none =>
      rw [acquireFrame_succ_none (k + 1) hr]
      refine ih (start + 1) ?_
      have e : start + 1 + k = start + (k + 1) := by omega
      rw [e]
      exact h

/-- On a trace where every read fails, the loop makes no progress at any
fuel. -/
lemma acquireFrame_all_none {reads : ℕ → Option Frame} (h : ∀ n, reads n = none) :
    ∀ fuel start, acquireFrame reads fuel start = none := by
  intro fuel
  induction fuel with
  | zero => intro start; rfl
  | succ fuel ih =>
    intro start
    rw [acquireFrame_succ_none fuel (h start)]
    exact ih (start + 1)

/-! ### Claim theorems -/

/-- C2: the frame-acquisition retry loop in `print_mean_temp` terminates if
and only if some call to `mlx.getFrame` eventually succeeds; on a sensor
whose every read raises `ValueError`, the loop spins forever with no bound
on the number of retries. -/
theorem print_mean_temp_retry_terminates_iff (reads : ℕ → Option Frame) :
    ((∃ fuel f, acquireFrame reads fuel 0 = some f) ↔ ∃ n, reads n ≠ none) ∧
    ((∀ n, reads n = none) → ∀ fuel start, acquireFrame reads fuel start = none) := by
  constructor
  · constructor
    · rintro ⟨fuel, f, h⟩
      exact exists_read_of_acquireFrame reads fuel 0 f h
    · rintro ⟨n, hn⟩
      obtain ⟨f, hf⟩ := acquireFrame_succeeds reads n 0 (by simpa using hn)
      exact ⟨n + 1, f, hf⟩
  · intro h fuel start
    exact acquireFrame_all_none h fuel start

/-- Witness for C2: on the everywhere-failing trace the loop has made no
progress after 5 retries. -/
theorem print_mean_temp_retry_terminates_iff_witness :
    acquireFrame (fun _ => none) 5 0 = none :=
  (print_mean_temp_retry_terminates_iff (fun _ => none)).2 (fun _ => rfl) 5 0

/-- C3: `c_to_f` is the affine map `t ↦ (9/5)·t + 32`; in particular it
sends 0 to 32 and 100 to 212. -/
theorem c_to_f_affine :
    (∀ t : ℚ, c_to_f t = (9 / 5) * t + 32) ∧ c_to_f 0 = 32 ∧ c_to_f 100 = 212 :=
  ⟨fun _ => rfl, by norm_num [c_to_f], by norm_num [c_to_f]⟩

/-- C4: when the retry loop delivers a frame, `print_mean_temp` returns the
pair `(temp_c, temp_f)` with `temp_c` the arithmetic mean of the 768 buffer
entries and `temp_f = c_to_f temp_c`. -/
theorem print_mean_temp_returns_mean (reads : ℕ → Option Frame) (fuel : ℕ) (f : Frame)
    (h : acquireFrame reads fuel 0 = some f) :
    print_mean_temp_run reads fuel =
      some ((∑ i, f i) / 768, c_to_f ((∑ i, f i) / 768)) := by
  simp [print_mean_temp_run, h, print_mean_temp_result, np_mean]

/-- Witness for C4: a one-shot trace delivering the all-zero frame yields
mean 0 °C, i.e. 32 °F. -/
theorem print_mean_temp_returns_mean_witness :
    print_mean_temp_run (fun _ => some zeroFrame) 1 = some (0, 32) := by
  have h := print_mean_temp_returns_mean (fun _ => some zeroFrame) 1 zeroFrame rfl
  simpa [zeroFrame, c_to_f] using h

/-- C5: the horizontal mirroring applied before display is an involution:
flipping a 24×32 grid left-to-right twice returns the original grid. -/
theorem np_fliplr_involution (g : Fin 24 → Fin 32 → ℚ) :
    np_fliplr (np_fliplr g) = g := by
  funext i j
  simp [np_fliplr]

/-- C6: reshaping the 768-element buffer into the 24×32 grid is row-major —
element `i` of the buffer becomes entry `(i / 32, i % 32)` — and is
deterministic: equal buffers reshape to equal grids. -/
theorem np_reshape_row_major (frame : Frame) :
    (∀ i : Fin 768,
        np_reshape frame ⟨i.val / 32, by have := i.isLt; omega⟩
          ⟨i.val % 32, by have := i.isLt; omega⟩ = frame i) ∧
    (∀ frame₂ : Frame, frame = frame₂ → np_reshape frame = np_reshape frame₂) := by
  constructor
  · intro i
    unfold np_reshape
    exact congrArg frame (Fin.ext (Nat.div_add_mod i.val 32))
  · intro frame₂ h
    rw [h]

/-- Witness for C6: entry 37 of the zero buffer lands at grid cell
`(37 / 32, 37 % 32) = (1, 5)`, and reshaping the zero buffer is
deterministic. -/
theorem np_reshape_row_major_witness :
    np_reshape zeroFrame ⟨37 / 32, by omega⟩ ⟨37 % 32, by omega⟩ =
      zeroFrame ⟨37, by omega⟩ ∧
    np_reshape zeroFrame = np_reshape zeroFrame :=
  ⟨(np_reshape_row_major zeroFrame).1 ⟨37, by omega⟩,
   (np_reshape_row_major zeroFrame).2 zeroFrame rfl⟩

/-- C1 counterexample: the claim says every acquisition site in every mode
retries on `ValueError`, but `simple_pic`'s `mlx.getFrame` call (script
line 96) is unguarded: on a trace whose first read fails and whose second
read would succeed, the mode crashes instead of retrying. -/
theorem retry_on_value_error_cex :
    simple_pic_run (fun n => if n = 0 then none else some zeroFrame) "out/" =
      ModeRun.crashed ∧
    (fun n => if n = 0 then (none : Option Frame) else some zeroFrame) 1 =
      some zeroFrame :=
  ⟨rfl, rfl⟩

/-- C1 (amended): a `ValueError` from `mlx.getFrame` is retried
unconditionally and immediately — no backoff, no retry limit, no state
change — only at the acquisition sites of `print_mean_temp` and
`simple_camera_read`; in `simple_pic`, `interpolated_pic` and
`interpolated_camera_read` the acquisition call is unguarded and the error
propagates, aborting the mode. -/
theorem value_error_handling_per_mode :
    (∀ (reads : ℕ → Option Frame) (fuel n : ℕ), reads n = none →
        acquireFrame reads (fuel + 1) n = acquireFrame reads fuel (n + 1)) ∧
    (∀ (read : Option Frame) (dur : ℚ) (ta : List ℚ), read = none →
        scr_step read dur ta = .next ta) ∧
    (∀ (reads : ℕ → Option Frame) (folder : String), reads 0 = none →
        simple_pic_run reads folder = .crashed) ∧
    (∀ (reads : ℕ → Option Frame) (folder : String), reads 0 = none →
        interpolated_pic_run reads folder = .crashed) ∧
    (∀ (prof : Bool) (folder : String) (t1 dur : ℚ) (st : ICRState),
        icr_step prof folder none t1 dur st =
          .crash { st with last_update := if 5 < t1 - st.last_update then t1
                                          else st.last_update }) := by
  refine ⟨?_, ?_, ?_, ?_, ?_⟩
  · intro reads fuel n h
    exact acquireFrame_succ_none fuel h
  · intro read dur ta h
    subst h
    rfl
  · intro reads folder h
    simp [simple_pic_run, h]
  · intro reads folder h
    simp [interpolated_pic_run, h]
  · intro prof folder t1 dur st
    exact icr_step_none prof folder t1 dur st

/-- Witness for amended C1: concrete instances of each per-mode behaviour
on a failing read. -/
theorem value_error_handling_per_mode_witness :
    acquireFrame (fun _ => none) 1 0 = acquireFrame (fun _ => none) 0 1 ∧
    scr_step none 1 [] = .next [] ∧
    simple_pic_run (fun _ => none) "" = .crashed ∧
    interpolated_pic_run (fun _ => none) "" = .crashed ∧
    icr_step false "" none 0 1 icr_init =
      .crash { icr_init with last_update := if 5 < (0 : ℚ) - icr_init.last_update then 0
                                            else icr_init.last_update } :=
  ⟨value_error_handling_per_mode.1 (fun _ => none) 0 0 rfl,
   value_error_handling_per_mode.2.1 none 1 [] rfl,
   value_error_handling_per_mode.2.2.1 (fun _ => none) "" rfl,
   value_error_handling_per_mode.2.2.2.1 (fun _ => none) "" rfl,
   value_error_handling_per_mode.2.2.2.2 false "" 0 1 icr_init⟩

/-- C7: the program consumes exactly one configuration key — section
`FILEPATHS`, option `output_folder` — and that value is used only as the
directory prefix of the files the modes save (the two PNG snapshots and the
profiling-statistics file). -/
theorem config_single_key (c : Config) (folder : String) :
    (moduleInit c).1 = c.get "FILEPATHS" "output_folder" ∧
    (moduleInit c).2 = [("FILEPATHS", "output_folder")] ∧
    (∀ reads files, simple_pic_run reads folder = .finished files →
        ∀ p ∈ files, ∃ s, p = folder ++ s) ∧
    (∀ reads files, interpolated_pic_run reads folder = .finished files →
        ∀ p ∈ files, ∃ s, p = folder ++ s) ∧
    (∀ (prof : Bool) (reads : ℕ → Option Frame) (t1s dur : ℕ → ℚ)
        (fuel n : ℕ) (st : ICRState),
        (∀ p ∈ st.files, ∃ s, p = folder ++ s) →
        ∀ p ∈ (icr_run prof folder reads t1s dur fuel n st).state.files,
          ∃ s, p = folder ++ s) := by
  refine ⟨rfl, rfl, ?_, ?_, ?_⟩
  · intro reads files h p hp
    cases hr : reads 0 with
    | none => simp [simple_pic_run, hr] at h
    | some f =>
      simp only [simple_pic_run, hr] at h
      cases h
      simp only [List.mem_singleton] at hp
      exact ⟨"simple_pic.png", hp⟩
  · intro reads files h p hp
    cases hr : reads 0 with
    | none => simp [interpolated_pic_run, hr] at h
    | some f =>
      simp only [interpolated_pic_run, hr] at h
      cases h
      simp only [List.mem_singleton] at hp
      exact ⟨"interp_pic.png", hp⟩
  · intro prof reads t1s dur fuel n st hst
    refine runLoop_invariant _ (fun s => ∀ p ∈ s.files, ∃ t, p = folder ++ t)
      ?_ fuel n st hst
    intro m s hP p hp
    rcases icr_step_state_files prof folder (reads m) (t1s m) (dur m) s with h | h
    · rw [h] at hp
      exact hP p hp
    · rw [h] at hp
      rcases List.mem_append.1 hp with hmem | hmem
      · exact hP p hmem
      · simp only [List.mem_singleton] at hmem
        exact ⟨"profiling_stats.prof", hmem⟩

/-- Witness for C7: a concrete configuration map and an output path of a
successful `simple_pic` run that indeed starts with the configured
folder. -/
theorem config_single_key_witness :
    (moduleInit { get := fun _ _ => none }).2 = [("FILEPATHS", "output_folder")] ∧
    (∃ s, (("out/" : String) ++ "simple_pic.png") = "out/" ++ s) :=
  ⟨(config_single_key { get := fun _ _ => none } "out/").2.1,
   (config_single_key { get := fun _ _ => none } "out/").2.2.1
     (fun _ => some zeroFrame) ["out/" ++ "simple_pic.png"] rfl
     ("out/" ++ "simple_pic.png") (by simp)⟩

lemma icr_run_succ_next {prof : Bool} {folder : String} {reads : ℕ → Option Frame}
    {t1s dur : ℕ → ℚ} {n : ℕ} {st st' : ICRState} (fuel : ℕ)
    (hs : icr_step prof folder (reads n) (t1s n) (dur n) st = .next st') :
    icr_run prof folder reads t1s dur (fuel + 1) n st =
      icr_run prof folder reads t1s dur fuel (n + 1) st' :=
  runLoop_succ_next fuel hs

lemma icr_run_succ_halt {prof : Bool} {folder : String} {reads : ℕ → Option Frame}
    {t1s dur : ℕ → ℚ} {n : ℕ} {st st' : ICRState} (fuel : ℕ)
    (hs : icr_step prof folder (reads n) (t1s n) (dur n) st = .halt st') :
    icr_run prof folder reads t1s dur (fuel + 1) n st = .finished st' :=
  runLoop_succ_halt fuel hs

lemma icr_run_succ_crash {prof : Bool} {folder : String} {reads : ℕ → Option Frame}
    {t1s dur : ℕ → ℚ} {n : ℕ} {st st' : ICRState} (fuel : ℕ)
    (hs : icr_step prof folder (reads n) (t1s n) (dur n) st = .crash st') :
    icr_run prof folder reads t1s dur (fuel + 1) n st = .crashed st' :=
  runLoop_succ_crash fuel hs

/-- With profiling on, when the loop exits normally from a state whose
full-update count is still below 20, the final count is exactly 20 and the
profiling-statistics dump is the one new file. -/
lemma icr_run_true_finished (folder : String) (reads : ℕ → Option Frame)
    (t1s dur : ℕ → ℚ) :
    ∀ fuel n st st', st.count ≤ 19 →
      icr_run true folder reads t1s dur fuel n st = .finished st' →
      st'.count = 20 ∧ st'.files = st.files ++ [folder ++ "profiling_stats.prof"] := by
  intro fuel
  induction fuel with
  | zero =>
    intro n st st' _ h
    exact Run.noConfusion h
  | succ fuel ih =>
    intro n st st' hc h
    cases hs : icr_step true folder (reads n) (t1s n) (dur n) st with
    | next s₂ =>
      rw [icr_run_succ_next fuel hs] at h
      obtain ⟨hcnt, hfiles⟩ := icr_step_true_next_inv hc hs
      obtain ⟨h1, h2⟩ := ih (n + 1) s₂ st' hcnt h
      exact ⟨h1, by rw [h2, hfiles]⟩
    | halt s₂ =>
      rw [icr_run_succ_halt fuel hs] at h
      injection h with h'
      subst h'
      exact icr_step_true_halt_inv hc hs
    | crash s₂ =>
      rw [icr_run_succ_crash fuel hs] at h
      exact Run.noConfusion h

/-- C8: the profiling-statistics file is written exactly when the profiling
flag is set: with the flag unset the loop never touches the file trace;
with the flag set, a run that exits its loop has performed exactly 20 full
colorbar updates and written `output_folder + "profiling_stats.prof"`, and
the `break` fires precisely at the 20th full update. -/
theorem profiling_stats_only_when_profiling (folder : String)
    (reads : ℕ → Option Frame) (t1s dur : ℕ → ℚ) :
    (∀ fuel n st, (icr_run false folder reads t1s dur fuel n st).state.files = st.files) ∧
    (∀ fuel st', icr_run true folder reads t1s dur fuel 0 icr_init = .finished st' →
        st'.count = 20 ∧ st'.files = [folder ++ "profiling_stats.prof"]) ∧
    (∀ (t1 du : ℚ) (st : ICRState) (f : Frame), 5 < t1 - st.last_update →
        st.count = 19 →
        icr_step true folder (some f) t1 du st =
          .halt { t_array := if 10 < (st.t_array ++ [du]).length
                             then (st.t_array ++ [du]).tail
                             else st.t_array ++ [du],
                  last_update := t1, count := 20,
                  files := st.files ++ [folder ++ "profiling_stats.prof"] }) := by
  refine ⟨?_, ?_, ?_⟩
  · intro fuel n st
    refine runLoop_invariant _ (fun s => s.files = st.files) ?_ fuel n st rfl
    intro m s h
    rw [icr_step_false_files folder (reads m) (t1s m) (dur m) s]
    exact h
  · intro fuel st' h
    have := icr_run_true_finished folder reads t1s dur fuel 0 icr_init st'
      (by norm_num [icr_init]) h
    simpa [icr_init] using this
  · intro t1 du st f h5 h19
    norm_num [icr_step, h5, h19]

/-- Witness for C8: on a trace of always-successful reads with a full
update every iteration, the loop with profiling on finishes after 20
iterations in the predicted state, and the step at count 19 is the halting
dump. -/
theorem profiling_stats_only_when_profiling_witness :
    (({ t_array := List.replicate 10 1, last_update := 114, count := 20,
        files := ["profiling_stats.prof"] } : ICRState).count = 20 ∧
     ({ t_array := List.replicate 10 1, last_update := 114, count := 20,
        files := ["profiling_stats.prof"] } : ICRState).files =
       ["" ++ "profiling_stats.prof"]) ∧
    icr_step true "" (some zeroFrame) 0 1
        { t_array := [], last_update := -100, count := 19, files := [] } =
      .halt { t_array := if 10 < (([] : List ℚ) ++ [1]).length
                         then (([] : List ℚ) ++ [1]).tail
                         else ([] : List ℚ) ++ [1],
              last_update := 0, count := 20,
              files := ([] : List String) ++ ["" ++ "profiling_stats.prof"] } := by
  constructor
  · refine (profiling_stats_only_when_profiling "" (fun _ => some zeroFrame)
      (fun n => 6 * n) (fun _ => 1)).2.1 20 _ ?_
    norm_num [icr_run, runLoop, icr_step, icr_init, List.replicate, zeroFrame]
  · exact (profiling_stats_only_when_profiling "" (fun _ => some zeroFrame)
      (fun n => 6 * n) (fun _ => 1)).2.2 0 1 _ zeroFrame (by norm_num) rfl

/-- C9 counterexample: the claim says every mode's body is a loop with no
normal exit path, but `simple_pic` is single-pass: on a successful read it
returns normally after saving its snapshot. -/
theorem every_mode_unbounded_loop_cex :
    simple_pic_run (fun _ => some zeroFrame) "out/" =
      .finished ["out/" ++ "simple_pic.png"] :=
  rfl

/-- C9 (amended): `simple_camera_read` runs an unbounded loop with no exit
path at all, and `interpolated_camera_read` with the profiling flag unset
(its source value) has no normal exit; but `print_mean_temp`'s loop exits
on the first successful read, and `simple_pic` and `interpolated_pic` are
single-pass bodies that return normally after one successful
acquisition. -/
theorem loop_exit_paths_per_mode :
    (∀ (reads : ℕ → Option Frame) (dur : ℕ → ℚ) (fuel n : ℕ) (ta : List ℚ),
        ∃ ta', scr_run reads dur fuel n ta = .running ta') ∧
    (∀ (folder : String) (reads : ℕ → Option Frame) (t1s dur : ℕ → ℚ)
        (fuel n : ℕ) (st st' : ICRState),
        icr_run profiling folder reads t1s dur fuel n st ≠ .finished st') ∧
    (∀ (reads : ℕ → Option Frame) (folder : String) (f : Frame), reads 0 = some f →
        simple_pic_run reads folder = .finished [folder ++ "simple_pic.png"] ∧
        interpolated_pic_run reads folder = .finished [folder ++ "interp_pic.png"]) ∧
    (∀ (reads : ℕ → Option Frame) (n : ℕ) (f : Frame), reads n = some f →
        ∃ fuel r, print_mean_temp_run reads fuel = some r) := by
  refine ⟨?_, ?_, ?_, ?_⟩
  · intro reads dur fuel n ta
    refine runLoop_running _ ?_ fuel n ta
    intro m s
    cases h : reads m with
    | none => exact ⟨s, by simp [scr_step, h]⟩
    | some f => exact ⟨s ++ [dur m], by simp [scr_step, h]⟩
  · intro folder reads t1s dur fuel n st st'
    show icr_run false folder reads t1s dur fuel n st ≠ .finished st'
    refine runLoop_ne_finished _ ?_ fuel n st st'
    intro m s s'
    exact icr_step_false_no_halt folder (reads m) (t1s m) (dur m) s s'
  · intro reads folder f h
    constructor
    · simp [simple_pic_run, h]
    · simp [interpolated_pic_run, h]
  · intro reads n f h
    obtain ⟨g, hg⟩ := acquireFrame_succeeds reads n 0 (by simp [h])
    exact ⟨n + 1, print_mean_temp_result g, by simp [print_mean_temp_run, hg]⟩

/-- Witness for amended C9: with an always-succeeding sensor, the two
single-pass modes return normally and `print_mean_temp` terminates. -/
theorem loop_exit_paths_per_mode_witness :
    (simple_pic_run (fun _ => some zeroFrame) "o/" =
        .finished ["o/" ++ "simple_pic.png"] ∧
     interpolated_pic_run (fun _ => some zeroFrame) "o/" =
        .finished ["o/" ++ "interp_pic.png"]) ∧
    (∃ fuel r, print_mean_temp_run (fun _ => some zeroFrame) fuel = some r) :=
  ⟨loop_exit_paths_per_mode.2.2.1 (fun _ => some zeroFrame) "o/" zeroFrame rfl,
   loop_exit_paths_per_mode.2.2.2 (fun _ => some zeroFrame) 0 zeroFrame rfl⟩

/-- C10: in `interpolated_camera_read`, `t_array` holds at most 10 samples
at the end of every loop iteration: each successful iteration appends one
timing sample and, when the length would exceed 10, drops the oldest, so
the new window is a suffix of the old one extended by the new sample and
its length is `min (old + 1) 10`. -/
theorem t_array_at_most_ten (prof : Bool) (folder : String)
    (reads : ℕ → Option Frame) (t1s dur : ℕ → ℚ) :
    (∀ fuel n,
        (icr_run prof folder reads t1s dur fuel n icr_init).state.t_array.length ≤ 10) ∧
    (∀ (read : Option Frame) (t1 du : ℚ) (st : ICRState) (f : Frame),
        read = some f → st.t_array.length ≤ 10 →
        (icr_step prof folder read t1 du st).state.t_array.length =
          min (st.t_array.length + 1) 10 ∧
        List.IsSuffix (icr_step prof folder read t1 du st).state.t_array
          (st.t_array ++ [du])) := by
  constructor
  · intro fuel n
    refine runLoop_invariant _ (fun s => s.t_array.length ≤ 10) ?_ fuel n icr_init
      (by simp [icr_init])
    intro m s h
    exact icr_step_t_array_le prof folder (reads m) (t1s m) (dur m) s h
  · intro read t1 du st f hread hlen
    subst hread
    constructor
    · rw [icr_step_some_t_array]
      split
      · rename_i hgt
        simp only [List.length_tail, List.length_append, List.length_singleton] at *
        omega
      · rename_i hle
        simp only [List.length_append, List.length_singleton] at *
        omega
    · rw [icr_step_some_t_array]
      split
      · exact List.tail_suffix _
      · exact List.suffix_refl _

/-- Witness for C10: one successful step from the initial state grows the
window to one sample, a suffix of `[] ++ [1]`. -/
theorem t_array_at_most_ten_witness :
    (icr_step false "" (some zeroFrame) 0 1 icr_init).state.t_array.length =
      min (icr_init.t_array.length + 1) 10 ∧
    List.IsSuffix (icr_step false "" (some zeroFrame) 0 1 icr_init).state.t_array
      (icr_init.t_array ++ [1]) :=
  (t_array_at_most_ten false "" (fun _ => none) (fun _ => 0) (fun _ => 0)).2
    (some zeroFrame) 0 1 icr_init zeroFrame rfl (by simp [icr_init])

end ThermCam
